import Mathlib

/-!
Verification of the polar_mqtt bridge (C++ domain model layer in
`src/cpp/impl/PolarMqtt.cpp` and the C flattening layer in
`bridge/src/mqtt_c.cpp`) against its natural-language specification.

The native Paho MQTT client engine is an external collaborator: every
native call (`MQTTClient_create`, `MQTTClient_connect`,
`MQTTClient_subscribe`, `MQTTClient_unsubscribe`,
`MQTTClient_publishMessage`) returns an integer result code, with 0
(`MQTTCLIENT_SUCCESS`) meaning success.  We model each such call by
passing its result code as an explicit argument to the operation, so a
theorem quantifying over those codes covers every behaviour of the
engine.  Handler notifications (`SessionHandler::onStateChange`,
`SessionHandler::onError`) are modelled as an event trace emitted by
each operation, in invocation order.
-/

namespace PolarMqtt

/-- `mqtt::SessionState` from `SessionHandler.hpp`. -/
inductive SessionState : Type
  | DISCONNECTED
  | CONNECTING
  | CONNECTED
  | RECONNECTING
deriving DecidableEq, Repr

/-- `mqtt::ConnectionConfig::Parameter` from `ConnectionConfig.hpp`
(the same ordinal values as `mqtt_parameter_t` in the C bridge header,
which is cast straight into it). -/
inductive Parameter : Type
  | KEEP_ALIVE_INTERVAL
  | CLEAN_SESSION
  | CONNECTION_TIMEOUT
  | MAX_INFLIGHT
  | MAX_QUEUED_MESSAGES
  | RECONNECT_DELAY
  | TLS_ENABLED
deriving DecidableEq, Repr

/-- `mqtt::ConnectionConfig::Impl` from `PolarMqtt.cpp`. -/
structure ConnectionConfig : Type where
  broker : String
  port : Nat
  username : String
  password : String
  caFile : String
  certFile : String
  keyFile : String
  keepAliveInterval : Int
  cleanSession : Bool
  connectionTimeout : Int
  maxInflight : Int
  maxQueuedMessages : Int
  reconnectDelay : Int
  tlsEnabled : Bool
deriving DecidableEq, Repr

/-- The value-initialized `ConnectionConfig::Impl` (default member
initializers; the uninitialized `broker`/`port`/string members are
zero-initialized by `new Impl()`). -/
def ConnectionConfig.init : ConnectionConfig where
  broker := ""
  port := 0
  username := ""
  password := ""
  caFile := ""
  certFile := ""
  keyFile := ""
  keepAliveInterval := 60
  cleanSession := true
  connectionTimeout := 30
  maxInflight := 10
  maxQueuedMessages := 100
  reconnectDelay := 5
  tlsEnabled := false

/-- `ConnectionConfig::set(Parameter, int32_t)`: dispatches on the
parameter code; codes not in the integer switch fall to `default` and
change nothing. -/
def ConnectionConfig.setInt (c : ConnectionConfig) (param : Parameter)
    (value : Int) : ConnectionConfig :=
  match param with
  | .KEEP_ALIVE_INTERVAL => { c with keepAliveInterval := value }
  | .CONNECTION_TIMEOUT => { c with connectionTimeout := value }
  | .MAX_INFLIGHT => { c with maxInflight := value }
  | .MAX_QUEUED_MESSAGES => { c with maxQueuedMessages := value }
  | .RECONNECT_DELAY => { c with reconnectDelay := value }
  | _ => c

/-- `ConnectionConfig::set(Parameter, bool)`: only `CLEAN_SESSION` and
`TLS_ENABLED` are in the boolean switch; anything else falls to
`default` and changes nothing. -/
def ConnectionConfig.setBool (c : ConnectionConfig) (param : Parameter)
    (value : Bool) : ConnectionConfig :=
  match param with
  | .CLEAN_SESSION => { c with cleanSession := value }
  | .TLS_ENABLED => { c with tlsEnabled := value }
  | _ => c

/-- `ConnectionConfig::setBroker(url, port)`; a null `url` stores `""`. -/
def ConnectionConfig.setBroker (c : ConnectionConfig) (url : Option String)
    (port : Nat) : ConnectionConfig :=
  { c with broker := url.getD "", port := port }

/-- `ConnectionConfig::setCredentials`; null pointers store `""`. -/
def ConnectionConfig.setCredentials (c : ConnectionConfig)
    (username password : Option String) : ConnectionConfig :=
  { c with username := username.getD "", password := password.getD "" }

/-- `ConnectionConfig::setTlsCertificates`: stores the trio and forces
`tlsEnabled := true`. -/
def ConnectionConfig.setTlsCertificates (c : ConnectionConfig)
    (caFile certFile keyFile : Option String) : ConnectionConfig :=
  { c with caFile := caFile.getD "", certFile := certFile.getD "",
           keyFile := keyFile.getD "", tlsEnabled := true }

/-- One handler notification: `onStateChange` or `onError`, recorded in
invocation order. -/
inductive Event : Type
  | stateChange (newState : SessionState)
  | error (errorCode : Int) (message : String)
deriving DecidableEq, Repr

/-- A `SessionHandler` call happens only when the handler pointer is
non-null (`if (impl_->sessionHandler)`). -/
def emit (hasHandler : Bool) (e : Event) : List Event :=
  if hasHandler then [e] else []

/-- The subscription table `std::map<int64_t, std::string>`: an
association list with unique keys, looked up and erased by key. -/
def mapFind : List (Int × String) → Int → Option String
  | [], _ => none
  | (k, v) :: rest, key => if k = key then some v else mapFind rest key

/-- `subscriptions[handle] = topic`: replace the value at an existing
key, or append a fresh entry. -/
def mapInsert : List (Int × String) → Int → String → List (Int × String)
  | [], key, val => [(key, val)]
  | (k, v) :: rest, key, val =>
    if k = key then (key, val) :: rest
    else (k, v) :: mapInsert rest key val

/-- `subscriptions.erase(it)` where `it` is the iterator found for the
key: removes the first (and, keys being unique, only) entry. -/
def mapErase : List (Int × String) → Int → List (Int × String)
  | [], _ => []
  | (k, v) :: rest, key =>
    if k = key then rest else (k, v) :: mapErase rest key

/-- The keys of the subscription table are pairwise distinct (the
`std::map` representation invariant). -/
def keysNodup (m : List (Int × String)) : Prop :=
  (m.map Prod.fst).Nodup

instance (m : List (Int × String)) : Decidable (keysNodup m) := by
  unfold keysNodup; infer_instance

/-- `mqtt::Session::Impl` from `PolarMqtt.cpp`.  `hasClient` models
whether the `MQTTClient` handle is non-null (it is zero-initialized by
`new Impl()`, set by a successful `MQTTClient_create`, and nulled by
`MQTTClient_destroy(&client)`); `hasMsgHandler`/`hasSessionHandler`
model the nullness of the two handler pointers. -/
structure SessionImpl : Type where
  clientId : String
  config : ConnectionConfig
  hasClient : Bool
  hasMsgHandler : Bool
  hasSessionHandler : Bool
  currentState : SessionState
  subscriptions : List (Int × String)
  nextSubHandle : Int
  nextMessageId : Int
deriving DecidableEq, Repr

/-- `Session::Session(clientId, handler)`: handler taken by reference
(non-null), state `DISCONNECTED`, counters start at 1, table empty. -/
def Session.new (clientId : String) : SessionImpl where
  clientId := clientId
  config := ConnectionConfig.init
  hasClient := false
  hasMsgHandler := false
  hasSessionHandler := true
  currentState := .DISCONNECTED
  subscriptions := []
  nextSubHandle := 1
  nextMessageId := 1

/-- Result of a session operation: the updated session, the returned
value, and the trace of handler notifications in invocation order. -/
structure OpResult (α : Type) : Type where
  session : SessionImpl
  ret : α
  events : List Event
deriving DecidableEq, Repr

/-- `Session::getState()` (the lock only serializes access; the value
read is `currentState`). -/
def Session.getState (s : SessionImpl) : SessionState :=
  s.currentState

/-- `Session::start()`.  `createRc` and `connectRc` are the result
codes of `MQTTClient_create` and `MQTTClient_connect`.  Faithful to the
source: an empty broker fails early (via `std::cerr` only — no handler
call); a create failure reports `onError` and leaves the state alone; a
successful create sets the client handle and the state becomes
`CONNECTING` (with no `onStateChange` call); a connect failure reports
`onError` and reverts the state to `DISCONNECTED` (the created client
is not destroyed); on success the state becomes `CONNECTED` and
`onStateChange(CONNECTED)` is the only notification. -/
def Session.start (s : SessionImpl) (createRc connectRc : Int) :
    OpResult Bool :=
  if s.config.broker = "" then
    { session := s, ret := false, events := [] }
  else if createRc ≠ 0 then
    { session := s, ret := false,
      events := emit s.hasSessionHandler (.error createRc "Failed to create client") }
  else
    let s1 := { s with hasClient := true, currentState := .CONNECTING }
    if connectRc ≠ 0 then
      { session := { s1 with currentState := .DISCONNECTED }, ret := false,
        events := emit s.hasSessionHandler (.error connectRc "Connection failed") }
    else
      { session := { s1 with currentState := .CONNECTED }, ret := true,
        events := emit s.hasSessionHandler (.stateChange .CONNECTED) }

/-- `Session::stop()`: if the client handle is non-null, disconnect,
destroy it (nulling the handle), set `DISCONNECTED` and notify
`onStateChange`; otherwise do nothing.  Returns `true` always. -/
def Session.stop (s : SessionImpl) : OpResult Bool :=
  if s.hasClient then
    { session := { s with hasClient := false, currentState := .DISCONNECTED },
      ret := true,
      events := emit s.hasSessionHandler (.stateChange .DISCONNECTED) }
  else
    { session := s, ret := true, events := [] }

/-- `Session::subscribe(topic, qos)` with `rc` the result code of
`MQTTClient_subscribe`: on failure report `onError` and return -1
(nothing else changes); on success allocate `nextSubHandle`, increment
the counter, record the topic and return the handle. -/
def Session.subscribe (s : SessionImpl) (topic : String) (rc : Int) :
    OpResult Int :=
  if rc ≠ 0 then
    { session := s, ret := -1,
      events := emit s.hasSessionHandler (.error rc "Subscribe failed") }
  else
    { session :=
        { s with
          nextSubHandle := s.nextSubHandle + 1
          subscriptions := mapInsert s.subscriptions s.nextSubHandle topic }
      ret := s.nextSubHandle
      events := [] }

/-- `Session::unsubscribe(handle)` with `rc` the result code of
`MQTTClient_unsubscribe`: an absent handle returns `false` with no
handler call; a present handle issues the native unsubscribe, removing
the entry and returning `true` on success, or reporting `onError`,
returning `false` and leaving the entry intact on failure. -/
def Session.unsubscribe (s : SessionImpl) (handle : Int) (rc : Int) :
    OpResult Bool :=
  match mapFind s.subscriptions handle with
  | none => { session := s, ret := false, events := [] }
  | some _ =>
    if rc ≠ 0 then
      { session := s, ret := false,
        events := emit s.hasSessionHandler (.error rc "Unsubscribe failed") }
    else
      { session := { s with subscriptions := mapErase s.subscriptions handle },
        ret := true, events := [] }

/-- `Session::publish(topic, payload, length, qos, retain)` with `rc`
the result code of `MQTTClient_publishMessage`: the message id is
allocated (`nextMessageId++`) before the native call, so the counter
advances on failure too; on failure report `onError` and return -1, on
success return the allocated id. -/
def Session.publish (s : SessionImpl) (_topic : String) (rc : Int) :
    OpResult Int :=
  if rc ≠ 0 then
    { session := { s with nextMessageId := s.nextMessageId + 1 }, ret := -1,
      events := emit s.hasSessionHandler (.error rc "Publish failed") }
  else
    { session := { s with nextMessageId := s.nextMessageId + 1 },
      ret := s.nextMessageId, events := [] }

/-! ## The C flattening layer (`bridge/src/mqtt_c.cpp`)

A `mqtt_session_handle_t` is modelled as a `Nat`; a null handle, or a
handle whose embedded `session` pointer is null, is represented by
`Option`.  The anonymous-namespace globals (`g_factory`,
`g_message_handlers`, `g_session_handlers`) form the bridge state. -/

/-- The global state of the bridge translation unit: whether
`g_factory` is non-null, the two adapter registries (keyed by the
opaque handle), the live handle records, and a fresh-handle counter
standing in for the allocator. -/
structure BridgeState : Type where
  hasFactory : Bool
  messageHandlers : List Nat
  sessionHandlers : List Nat
  sessions : List (Nat × SessionImpl)
  nextHandle : Nat
deriving DecidableEq, Repr

/-- Bridge state at load time: `g_factory = nullptr`, both registries
empty. -/
def BridgeState.init : BridgeState where
  hasFactory := false
  messageHandlers := []
  sessionHandlers := []
  sessions := []
  nextHandle := 0

/-- `mqtt_create_session(client_id, message_cb, state_cb, error_cb,
user_context)`: returns null if `g_factory` is null; otherwise creates
the domain session (always wired to a freshly allocated
`SessionCallbackHandler`), allocates the handle record, registers a
`MessageCallbackHandler` only when a message callback was supplied, and
registers the session-handler adapter. -/
def mqtt_create_session (g : BridgeState) (clientId : String)
    (hasMessageCb : Bool) : BridgeState × Option Nat :=
  if !g.hasFactory then
    (g, none)
  else
    let h := g.nextHandle
    let sess := { Session.new clientId with hasMsgHandler := hasMessageCb }
    ({ g with
        nextHandle := h + 1
        sessions := (h, sess) :: g.sessions
        messageHandlers :=
          if hasMessageCb then h :: g.messageHandlers else g.messageHandlers
        sessionHandlers := h :: g.sessionHandlers },
     some h)

/-- `mqtt_set_int_parameter(session, param, value)`: null-checks the
handle and its session, then forwards to the `int32_t` overload of
`ConnectionConfig::set`.  Returns 0 on any valid handle. -/
def mqtt_set_int_parameter (session : Option SessionImpl)
    (param : Parameter) (value : Int) : Option SessionImpl × Int :=
  match session with
  | none => (none, -1)
  | some s => (some { s with config := s.config.setInt param value }, 0)

/-- `mqtt_set_bool_parameter(session, param, value)`: null-checks, then
forwards `value != 0` to the `bool` overload of
`ConnectionConfig::set`.  Returns 0 on any valid handle. -/
def mqtt_set_bool_parameter (session : Option SessionImpl)
    (param : Parameter) (value : Int) : Option SessionImpl × Int :=
  match session with
  | none => (none, -1)
  | some s => (some { s with config := s.config.setBool param (value != 0) }, 0)

/-- `mqtt_session_get_state(session)`: the disconnected sentinel for a
null handle, otherwise the session's state. -/
def mqtt_session_get_state (session : Option SessionImpl) : SessionState :=
  match session with
  | none => .DISCONNECTED
  | some s => Session.getState s

/-- The observable steps `mqtt_destroy_session` performs, in program
order. -/
inductive DestroyAction : Type
  | stopSession
  | releaseMessageAdapter
  | releaseSessionAdapter
  | destroySession
  | freeHandleRecord
deriving DecidableEq, Repr

/-- The sequence of steps `mqtt_destroy_session(session)` executes, in
program order (from `bridge/src/mqtt_c.cpp`): an early return on a null
handle; otherwise `session->session->stop()` when the embedded session
pointer is non-null, then erasure of both adapter registries, then
`destroySession` when the factory and the session pointer are live,
then `delete session`. -/
def mqtt_destroy_session_actions (handleNonNull sessionNonNull hasFactory :
    Bool) : List DestroyAction :=
  if !handleNonNull then
    []
  else
    (if sessionNonNull then [DestroyAction.stopSession] else [])
    ++ [DestroyAction.releaseMessageAdapter, DestroyAction.releaseSessionAdapter]
    ++ (if hasFactory && sessionNonNull then [DestroyAction.destroySession] else [])
    ++ [DestroyAction.freeHandleRecord]

/-! ## Runs of session operations

To state per-session-lifetime properties (monotonic handles and ids) we
run an arbitrary list of subscribe/unsubscribe/publish calls against a
session, each carrying the engine's result code for its native call. -/

/-- One consumer call together with the engine's answer to its native
call. -/
inductive Op : Type
  | subscribe (topic : String) (rc : Int)
  | unsubscribe (handle : Int) (rc : Int)
  | publish (topic : String) (rc : Int)
deriving DecidableEq, Repr

/-- The value a call returned: a subscription handle (or -1), a
boolean, or a message id (or -1). -/
inductive OpRet : Type
  | subRet (v : Int)
  | unsubRet (b : Bool)
  | pubRet (v : Int)
deriving DecidableEq, Repr

/-- Apply one call to the session. -/
def applyOp (s : SessionImpl) : Op → SessionImpl × OpRet
  | .subscribe topic rc =>
    ((Session.subscribe s topic rc).session,
     .subRet (Session.subscribe s topic rc).ret)
  | .unsubscribe handle rc =>
    ((Session.unsubscribe s handle rc).session,
     .unsubRet (Session.unsubscribe s handle rc).ret)
  | .publish topic rc =>
    ((Session.publish s topic rc).session,
     .pubRet (Session.publish s topic rc).ret)

/-- The list of values returned by a run, in call order. -/
def runRets (s : SessionImpl) : List Op → List OpRet
  | [] => []
  | op :: rest => (applyOp s op).2 :: runRets (applyOp s op).1 rest

/-- The session after a run. -/
def runSession (s : SessionImpl) : List Op → SessionImpl
  | [] => s
  | op :: rest => runSession (applyOp s op).1 rest

/-- The non-negative values among the subscribe returns (failed
subscribes return -1; successful ones return the positive counter
value). -/
def subIdsOfRets : List OpRet → List Int
  | [] => []
  | .subRet v :: rest =>
    if 0 ≤ v then v :: subIdsOfRets rest else subIdsOfRets rest
  | _ :: rest => subIdsOfRets rest

/-- The non-negative values among the publish returns. -/
def pubIdsOfRets : List OpRet → List Int
  | [] => []
  | .pubRet v :: rest =>
    if 0 ≤ v then v :: pubIdsOfRets rest else pubIdsOfRets rest
  | _ :: rest => pubIdsOfRets rest

/-- The handles returned by the successful subscribe calls of a run. -/
def subSuccessIds (s : SessionImpl) (ops : List Op) : List Int :=
  subIdsOfRets (runRets s ops)

/-- The ids returned by the successful publish calls of a run. -/
def pubSuccessIds (s : SessionImpl) (ops : List Op) : List Int :=
  pubIdsOfRets (runRets s ops)

/-- How many subscribe calls of the run the engine accepted. -/
def countSubSucc : List Op → Nat
  | [] => 0
  | .subscribe _ rc :: rest =>
    (if rc = 0 then 1 else 0) + countSubSucc rest
  | _ :: rest => countSubSucc rest

/-- `intRange n k = [n, n+1, ..., n+k-1]`. -/
def intRange (n : Int) : Nat → List Int
  | 0 => []
  | k + 1 => n :: intRange (n + 1) k

/-- `Session::Impl::onConnectionLost(context, cause)`: sets the state
to `RECONNECTING` under the lock, then (if the session handler is
non-null) notifies `onStateChange(RECONNECTING)` followed by
`onError(-1, cause ? cause : "Connection lost")`. -/
def Session.connectionLost (s : SessionImpl) (cause : Option String) :
    OpResult Unit where
  session := { s with currentState := .RECONNECTING }
  ret := ()
  events :=
    if s.hasSessionHandler then
      [Event.stateChange .RECONNECTING,
       Event.error (-1) (cause.getD "Connection lost")]
    else []

/-- `Session::setMessageHandler(handler)`. -/
def Session.setMessageHandler (s : SessionImpl) (hasHandler : Bool) :
    SessionImpl :=
  { s with hasMsgHandler := hasHandler }

/-- `Session::setSessionHandler(handler)`. -/
def Session.setSessionHandler (s : SessionImpl) (hasHandler : Bool) :
    SessionImpl :=
  { s with hasSessionHandler := hasHandler }

/-- The sessions that can actually arise at run time: those produced
from the constructor by the session operations.  `getConfig` hands out
a mutable reference to the configuration, so the `setConfig` case
over-approximates every configuration edit; the connection-lost
trampoline is registered against the native client, so the engine can
only invoke it while the client handle is live. -/
inductive Reachable : SessionImpl → Prop
  | new (clientId : String) : Reachable (Session.new clientId)
  | start (s : SessionImpl) (createRc connectRc : Int) :
      Reachable s → Reachable (Session.start s createRc connectRc).session
  | stop (s : SessionImpl) : Reachable s → Reachable (Session.stop s).session
  | subscribe (s : SessionImpl) (topic : String) (rc : Int) :
      Reachable s → Reachable (Session.subscribe s topic rc).session
  | unsubscribe (s : SessionImpl) (handle rc : Int) :
      Reachable s → Reachable (Session.unsubscribe s handle rc).session
  | publish (s : SessionImpl) (topic : String) (rc : Int) :
      Reachable s → Reachable (Session.publish s topic rc).session
  | connectionLost (s : SessionImpl) (cause : Option String) :
      Reachable s → s.hasClient = true →
      Reachable (Session.connectionLost s cause).session
  | setMessageHandler (s : SessionImpl) (hasHandler : Bool) :
      Reachable s → Reachable (Session.setMessageHandler s hasHandler)
  | setSessionHandler (s : SessionImpl) (hasHandler : Bool) :
      Reachable s → Reachable (Session.setSessionHandler s hasHandler)
  | setConfig (s : SessionImpl) (c : ConnectionConfig) :
      Reachable s → Reachable { s with config := c }

/-! Concrete sample inputs used by counterexamples and witnesses. -/

/-- A fresh session configured with broker `test.broker:1883` (the
spec's end-to-end scenario). -/
def brokerSession : SessionImpl :=
  { Session.new "client-1" with
    config := ConnectionConfig.setBroker ConnectionConfig.init
      (some "test.broker") 1883 }

/-- A fresh session holding one subscription, handle 1 on topic
`"t/1"`. -/
def oneSubSession : SessionImpl :=
  (Session.subscribe (Session.new "client-4") "t/1" 0).session

/-- A run with two accepted subscribes and two publishes, the first
publish rejected by the engine. -/
def sampleOps : List Op :=
  [Op.subscribe "a" 0, Op.publish "t" 1, Op.subscribe "b" 0, Op.publish "t" 0]

/-! ## Shared lemmas -/

theorem mapFind_cons (k0 : Int) (v0 : String) (rest : List (Int × String))
    (key : Int) :
    mapFind ((k0, v0) :: rest) key =
      if k0 = key then some v0 else mapFind rest key := rfl

theorem mapErase_cons (k0 : Int) (v0 : String) (rest : List (Int × String))
    (key : Int) :
    mapErase ((k0, v0) :: rest) key =
      if k0 = key then rest else (k0, v0) :: mapErase rest key := rfl

theorem mapFind_eq_none_of_not_mem_keys (m : List (Int × String)) (k : Int)
    (h : k ∉ m.map Prod.fst) : mapFind m k = none := by
  induction m with
  | nil => rfl
  | cons p rest ih =>
    obtain ⟨k0, v0⟩ := p
    simp only [List.map_cons, List.mem_cons] at h
    push_neg at h
    rw [mapFind_cons, if_neg fun hk => h.1 hk.symm]
    exact ih h.2

theorem mapFind_mapErase_self (m : List (Int × String)) (k : Int)
    (h : keysNodup m) : mapFind (mapErase m k) k = none := by
  induction m with
  | nil => rfl
  | cons p rest ih =>
    obtain ⟨k0, v0⟩ := p
    unfold keysNodup at h
    simp only [List.map_cons, List.nodup_cons] at h
    rw [mapErase_cons]
    by_cases hk : k0 = k
    · rw [if_pos hk]
      exact mapFind_eq_none_of_not_mem_keys rest k (hk ▸ h.1)
    · rw [if_neg hk, mapFind_cons, if_neg hk]
      exact ih h.2

theorem mapFind_mapErase_ne (m : List (Int × String)) (k k' : Int)
    (h : k' ≠ k) : mapFind (mapErase m k) k' = mapFind m k' := by
  induction m with
  | nil => rfl
  | cons p rest ih =>
    obtain ⟨k0, v0⟩ := p
    rw [mapErase_cons]
    by_cases hk : k0 = k
    · rw [if_pos hk, mapFind_cons, if_neg fun h0 => h (hk ▸ h0).symm]
    · rw [if_neg hk, mapFind_cons, mapFind_cons]
      by_cases h0 : k0 = k'
      · rw [if_pos h0, if_pos h0]
      · rw [if_neg h0, if_neg h0]
        exact ih

theorem subscribe_session_nextMessageId (s : SessionImpl) (topic : String)
    (rc : Int) :
    (Session.subscribe s topic rc).session.nextMessageId = s.nextMessageId := by
  unfold Session.subscribe
  split <;> rfl

theorem unsubscribe_session_counters (s : SessionImpl) (handle rc : Int) :
    (Session.unsubscribe s handle rc).session.nextSubHandle = s.nextSubHandle ∧
    (Session.unsubscribe s handle rc).session.nextMessageId = s.nextMessageId := by
  unfold Session.unsubscribe
  cases mapFind s.subscriptions handle with
  | none => exact ⟨rfl, rfl⟩
  | some t =>
    simp only
    split <;> exact ⟨rfl, rfl⟩

theorem publish_session_eq (s : SessionImpl) (topic : String) (rc : Int) :
    (Session.publish s topic rc).session =
      { s with nextMessageId := s.nextMessageId + 1 } := by
  unfold Session.publish
  split <;> rfl

theorem runRets_cons (s : SessionImpl) (op : Op) (ops : List Op) :
    runRets s (op :: ops) =
      (applyOp s op).2 :: runRets (applyOp s op).1 ops := rfl

theorem subscribe_success_eq (s : SessionImpl) (t : String) (rc : Int)
    (h : rc = 0) :
    Session.subscribe s t rc =
      { session :=
          { s with
            nextSubHandle := s.nextSubHandle + 1
            subscriptions := mapInsert s.subscriptions s.nextSubHandle t }
        ret := s.nextSubHandle
        events := [] } := by
  subst h
  rfl

theorem subscribe_fail_eq (s : SessionImpl) (t : String) (rc : Int)
    (h : rc ≠ 0) :
    Session.subscribe s t rc =
      { session := s, ret := -1
        events := emit s.hasSessionHandler (.error rc "Subscribe failed") } := by
  unfold Session.subscribe
  rw [if_pos h]

theorem publish_ret_eq (s : SessionImpl) (t : String) (rc : Int) :
    (Session.publish s t rc).ret =
      if rc = 0 then s.nextMessageId else -1 := by
  unfold Session.publish
  by_cases h : rc = 0
  · rw [if_pos h, if_neg (by simp [h])]
  · rw [if_neg h, if_pos h]

theorem subIdsOfRets_cons_sub (v : Int) (l : List OpRet) :
    subIdsOfRets (.subRet v :: l) =
      if 0 ≤ v then v :: subIdsOfRets l else subIdsOfRets l := rfl

theorem subIdsOfRets_cons_unsub (b : Bool) (l : List OpRet) :
    subIdsOfRets (.unsubRet b :: l) = subIdsOfRets l := rfl

theorem subIdsOfRets_cons_pub (v : Int) (l : List OpRet) :
    subIdsOfRets (.pubRet v :: l) = subIdsOfRets l := rfl

theorem pubIdsOfRets_cons_sub (v : Int) (l : List OpRet) :
    pubIdsOfRets (.subRet v :: l) = pubIdsOfRets l := rfl

theorem pubIdsOfRets_cons_unsub (b : Bool) (l : List OpRet) :
    pubIdsOfRets (.unsubRet b :: l) = pubIdsOfRets l := rfl

theorem pubIdsOfRets_cons_pub (v : Int) (l : List OpRet) :
    pubIdsOfRets (.pubRet v :: l) =
      if 0 ≤ v then v :: pubIdsOfRets l else pubIdsOfRets l := rfl

theorem applyOp_sub_succ_fst (s : SessionImpl) (t : String) (rc : Int)
    (h : rc = 0) :
    (applyOp s (.subscribe t rc)).1 =
      { s with
        nextSubHandle := s.nextSubHandle + 1
        subscriptions := mapInsert s.subscriptions s.nextSubHandle t } := by
  show (Session.subscribe s t rc).session = _
  rw [subscribe_success_eq s t rc h]

theorem applyOp_sub_succ_snd (s : SessionImpl) (t : String) (rc : Int)
    (h : rc = 0) :
    (applyOp s (.subscribe t rc)).2 = .subRet s.nextSubHandle := by
  show OpRet.subRet (Session.subscribe s t rc).ret = _
  rw [subscribe_success_eq s t rc h]

theorem applyOp_sub_fail_fst (s : SessionImpl) (t : String) (rc : Int)
    (h : rc ≠ 0) :
    (applyOp s (.subscribe t rc)).1 = s := by
  show (Session.subscribe s t rc).session = _
  rw [subscribe_fail_eq s t rc h]

theorem applyOp_sub_fail_snd (s : SessionImpl) (t : String) (rc : Int)
    (h : rc ≠ 0) :
    (applyOp s (.subscribe t rc)).2 = .subRet (-1) := by
  show OpRet.subRet (Session.subscribe s t rc).ret = _
  rw [subscribe_fail_eq s t rc h]

theorem applyOp_unsub_fst (s : SessionImpl) (handle rc : Int) :
    (applyOp s (.unsubscribe handle rc)).1 =
      (Session.unsubscribe s handle rc).session := rfl

theorem applyOp_unsub_snd (s : SessionImpl) (handle rc : Int) :
    (applyOp s (.unsubscribe handle rc)).2 =
      .unsubRet (Session.unsubscribe s handle rc).ret := rfl

theorem applyOp_pub_fst (s : SessionImpl) (t : String) (rc : Int) :
    (applyOp s (.publish t rc)).1 =
      { s with nextMessageId := s.nextMessageId + 1 } := by
  show (Session.publish s t rc).session = _
  rw [publish_session_eq]

theorem applyOp_pub_snd (s : SessionImpl) (t : String) (rc : Int) :
    (applyOp s (.publish t rc)).2 =
      (if rc = 0 then OpRet.pubRet s.nextMessageId else .pubRet (-1)) := by
  show OpRet.pubRet (Session.publish s t rc).ret = _
  rw [publish_ret_eq]
  by_cases h : rc = 0
  · rw [if_pos h, if_pos h]
  · rw [if_neg h, if_neg h]

theorem countSubSucc_cons_sub (t : String) (rc : Int) (rest : List Op) :
    countSubSucc (.subscribe t rc :: rest) =
      (if rc = 0 then 1 else 0) + countSubSucc rest := rfl

theorem countSubSucc_cons_unsub (handle rc : Int) (rest : List Op) :
    countSubSucc (.unsubscribe handle rc :: rest) = countSubSucc rest := rfl

theorem countSubSucc_cons_pub (t : String) (rc : Int) (rest : List Op) :
    countSubSucc (.publish t rc :: rest) = countSubSucc rest := rfl

theorem subSuccessIds_eq_intRange (ops : List Op) (s : SessionImpl)
    (h : 0 ≤ s.nextSubHandle) :
    subSuccessIds s ops = intRange s.nextSubHandle (countSubSucc ops) := by
  induction ops generalizing s with
  | nil => rfl
  | cons op rest ih =>
    cases op with
    | subscribe t rc =>
      by_cases hrc : rc = 0
      · unfold subSuccessIds
        rw [runRets_cons, applyOp_sub_succ_fst s t rc hrc,
          applyOp_sub_succ_snd s t rc hrc, subIdsOfRets_cons_sub, if_pos h]
        show s.nextSubHandle ::
            subSuccessIds
              { s with
                nextSubHandle := s.nextSubHandle + 1
                subscriptions := mapInsert s.subscriptions s.nextSubHandle t }
              rest = _
        rw [ih _ (by simp; omega), countSubSucc_cons_sub, if_pos hrc,
          Nat.add_comm 1 (countSubSucc rest)]
        rfl
      · unfold subSuccessIds
        rw [runRets_cons, applyOp_sub_fail_fst s t rc hrc,
          applyOp_sub_fail_snd s t rc hrc, subIdsOfRets_cons_sub,
          if_neg (by omega)]
        show subSuccessIds s rest = _
        rw [ih s h, countSubSucc_cons_sub, if_neg hrc, Nat.zero_add]
    | unsubscribe handle rc =>
      unfold subSuccessIds
      rw [runRets_cons, applyOp_unsub_fst, applyOp_unsub_snd,
        subIdsOfRets_cons_unsub]
      show subSuccessIds (Session.unsubscribe s handle rc).session rest = _
      rw [ih _ (by rw [(unsubscribe_session_counters s handle rc).1]; exact h),
        (unsubscribe_session_counters s handle rc).1, countSubSucc_cons_unsub]
    | publish t rc =>
      unfold subSuccessIds
      rw [runRets_cons, applyOp_pub_fst, applyOp_pub_snd]
      have hdrop : subIdsOfRets
          ((if rc = 0 then OpRet.pubRet s.nextMessageId else .pubRet (-1)) ::
            runRets { s with nextMessageId := s.nextMessageId + 1 } rest) =
          subIdsOfRets
            (runRets { s with nextMessageId := s.nextMessageId + 1 } rest) := by
        by_cases hrc : rc = 0
        · rw [if_pos hrc, subIdsOfRets_cons_pub]
        · rw [if_neg hrc, subIdsOfRets_cons_pub]
      rw [hdrop]
      show subSuccessIds { s with nextMessageId := s.nextMessageId + 1 }
          rest = _
      rw [ih { s with nextMessageId := s.nextMessageId + 1 } h,
        countSubSucc_cons_pub]

theorem pubSuccessIds_lower (ops : List Op) (s : SessionImpl) (x : Int)
    (hx : x ∈ pubSuccessIds s ops) : s.nextMessageId ≤ x := by
  induction ops generalizing s with
  | nil => cases hx
  | cons op rest ih =>
    cases op with
    | subscribe t rc =>
      by_cases hrc : rc = 0
      · rw [pubSuccessIds, runRets_cons, applyOp_sub_succ_fst s t rc hrc,
          applyOp_sub_succ_snd s t rc hrc, pubIdsOfRets_cons_sub] at hx
        have hle : ({ s with
            nextSubHandle := s.nextSubHandle + 1
            subscriptions := mapInsert s.subscriptions s.nextSubHandle t
            : SessionImpl }).nextMessageId ≤ x := ih _ hx
        exact hle
      · rw [pubSuccessIds, runRets_cons, applyOp_sub_fail_fst s t rc hrc,
          applyOp_sub_fail_snd s t rc hrc, pubIdsOfRets_cons_sub] at hx
        exact ih s hx
    | unsubscribe handle rc =>
      rw [pubSuccessIds, runRets_cons, applyOp_unsub_fst, applyOp_unsub_snd,
        pubIdsOfRets_cons_unsub] at hx
      have hle := ih _ hx
      rw [(unsubscribe_session_counters s handle rc).2] at hle
      exact hle
    | publish t rc =>
      rw [pubSuccessIds, runRets_cons, applyOp_pub_fst, applyOp_pub_snd] at hx
      by_cases hrc : rc = 0
      · rw [if_pos hrc, pubIdsOfRets_cons_pub] at hx
        by_cases hn : 0 ≤ s.nextMessageId
        · rw [if_pos hn] at hx
          rcases List.mem_cons.mp hx with heq | hmem
          · omega
          · have hle : ({ s with nextMessageId := s.nextMessageId + 1
                : SessionImpl }).nextMessageId ≤ x := ih _ hmem
            simp only at hle
            omega
        · rw [if_neg hn] at hx
          have hle : ({ s with nextMessageId := s.nextMessageId + 1
              : SessionImpl }).nextMessageId ≤ x := ih _ hx
          simp only at hle
          omega
      · rw [if_neg hrc, pubIdsOfRets_cons_pub, if_neg (by omega)] at hx
        have hle : ({ s with nextMessageId := s.nextMessageId + 1
            : SessionImpl }).nextMessageId ≤ x := ih _ hx
        simp only at hle
        omega

theorem pubSuccessIds_chain (ops : List Op) (s : SessionImpl) :
    List.Chain' (· < ·) (pubSuccessIds s ops) := by
  induction ops generalizing s with
  | nil => exact List.chain'_nil
  | cons op rest ih =>
    cases op with
    | subscribe t rc =>
      by_cases hrc : rc = 0
      · rw [pubSuccessIds, runRets_cons, applyOp_sub_succ_fst s t rc hrc,
          applyOp_sub_succ_snd s t rc hrc, pubIdsOfRets_cons_sub]
        exact ih _
      · rw [pubSuccessIds, runRets_cons, applyOp_sub_fail_fst s t rc hrc,
          applyOp_sub_fail_snd s t rc hrc, pubIdsOfRets_cons_sub]
        exact ih _
    | unsubscribe handle rc =>
      rw [pubSuccessIds, runRets_cons, applyOp_unsub_fst, applyOp_unsub_snd,
        pubIdsOfRets_cons_unsub]
      exact ih _
    | publish t rc =>
      rw [pubSuccessIds, runRets_cons, applyOp_pub_fst, applyOp_pub_snd]
      by_cases hrc : rc = 0
      · rw [if_pos hrc, pubIdsOfRets_cons_pub]
        by_cases hn : 0 ≤ s.nextMessageId
        · rw [if_pos hn]
          refine List.chain'_cons'.mpr ⟨fun y hy => ?_, ih _⟩
          have hmem : y ∈ pubSuccessIds
              { s with nextMessageId := s.nextMessageId + 1 } rest :=
            List.mem_of_mem_head? hy
          have hle : ({ s with nextMessageId := s.nextMessageId + 1
              : SessionImpl }).nextMessageId ≤ y :=
            pubSuccessIds_lower rest _ y hmem
          simp only at hle
          omega
        · rw [if_neg hn]
          exact ih _
      · rw [if_neg hrc, pubIdsOfRets_cons_pub, if_neg (by omega)]
        exact ih _

theorem intRange_chain (k : Nat) (n : Int) :
    List.Chain' (· < ·) (intRange n k) := by
  induction k generalizing n with
  | zero => exact List.chain'_nil
  | succ m ih =>
    cases m with
    | zero => simp [intRange]
    | succ m' =>
      refine List.chain'_cons.mpr ⟨by omega, ih (n + 1)⟩

theorem nodup_of_chain_lt (l : List Int) (h : List.Chain' (· < ·) l) :
    l.Nodup :=
  List.Pairwise.imp ne_of_lt (List.chain'_iff_pairwise.mp h)

/-! ## Claim theorems -/

/-- C1 counterexample.  On the spec's end-to-end scenario — broker
`test.broker:1883`, successful `start()` — the session handler's
`onStateChange` is invoked exactly once, with `CONNECTED`; there is no
`CONNECTING` notification, so the claimed two-call sequence
`[Connecting, Connected]` does not occur. -/
theorem start_success_claimed_two_notifications_false :
    (Session.start brokerSession 0 0).ret = true ∧
    (Session.start brokerSession 0 0).events =
      [Event.stateChange .CONNECTED] ∧
    (Session.start brokerSession 0 0).events ≠
      [Event.stateChange .CONNECTING, Event.stateChange .CONNECTED] := by
  decide

/-- C1 (amended): for every session whose configuration has a
non-empty broker and whose session handler is set, a successful
`start()` (native create and connect both succeed) returns `true`,
invokes the handler's `onStateChange` exactly once — with `CONNECTED` —
and leaves the session in state `CONNECTED`; the state passes through
`CONNECTING` internally without a handler notification. -/
theorem start_success_notifies_connected_once (s : SessionImpl)
    (createRc connectRc : Int) (hb : s.config.broker ≠ "")
    (hh : s.hasSessionHandler = true) (hc : createRc = 0)
    (hk : connectRc = 0) :
    (Session.start s createRc connectRc).ret = true ∧
    (Session.start s createRc connectRc).events =
      [Event.stateChange .CONNECTED] ∧
    Session.getState (Session.start s createRc connectRc).session =
      .CONNECTED := by
  subst hc hk
  unfold Session.start
  rw [if_neg hb]
  simp [emit, hh, Session.getState]

/-- Witness for C1 (amended) at the spec's scenario input. -/
theorem start_success_notifies_connected_once_witness :
    (Session.start brokerSession 0 0).ret = true ∧
    (Session.start brokerSession 0 0).events =
      [Event.stateChange .CONNECTED] ∧
    Session.getState (Session.start brokerSession 0 0).session =
      .CONNECTED :=
  start_success_notifies_connected_once brokerSession 0 0 (by decide) rfl
    rfl rfl

/-- C2 counterexample.  On a session whose broker is empty (and whose
session handler is set), `start()` returns `false` but performs no
handler notification at all: the validation failure is *not* reported
through the error side-channel. -/
theorem start_empty_broker_reports_no_error :
    (Session.new "client-2").hasSessionHandler = true ∧
    (Session.start (Session.new "client-2") 0 0).ret = false ∧
    (Session.start (Session.new "client-2") 0 0).events = [] := by
  decide

/-- C2 (amended): for every session whose configuration has an empty
broker string, `start()` fails (returns `false`), but this validation
failure is reported only through the return value — no session-handler
error notification is issued, and the session is left unchanged.  (Only
the later native create/connect failures reach the handler's error
side-channel.) -/
theorem start_empty_broker_fails_silently (s : SessionImpl)
    (createRc connectRc : Int) (hb : s.config.broker = "") :
    Session.start s createRc connectRc =
      { session := s, ret := false, events := [] } := by
  unfold Session.start
  rw [if_pos hb]

/-- Witness for C2 (amended) on a fresh session. -/
theorem start_empty_broker_fails_silently_witness :
    Session.start (Session.new "client-2w") 3 4 =
      { session := Session.new "client-2w", ret := false, events := [] } :=
  start_empty_broker_fails_silently (Session.new "client-2w") 3 4 rfl

/-- C7: if global initialization has never been performed (`g_factory`
is null), `mqtt_create_session` returns a null handle for every client
id and callback combination, and leaves the bridge state — in
particular both handler registries — untouched. -/
theorem create_session_null_without_init (g : BridgeState)
    (clientId : String) (hasMessageCb : Bool) (h : g.hasFactory = false) :
    mqtt_create_session g clientId hasMessageCb = (g, none) := by
  unfold mqtt_create_session
  rw [h]
  rfl

/-- Witness for C7 at the load-time bridge state. -/
theorem create_session_null_without_init_witness :
    mqtt_create_session BridgeState.init "client-7" true =
      (BridgeState.init, none) :=
  create_session_null_without_init BridgeState.init "client-7" true rfl

/-- C8: on a valid session handle, passing a boolean-only parameter
code (`CLEAN_SESSION`, `TLS_ENABLED`) to `mqtt_set_int_parameter`, or
an integer-only code to `mqtt_set_bool_parameter`, returns success (0)
and leaves the session — in particular every field of its connection
configuration — unchanged. -/
theorem mismatched_parameter_setter_noop (s : SessionImpl) (value : Int) :
    mqtt_set_int_parameter (some s) .CLEAN_SESSION value = (some s, 0) ∧
    mqtt_set_int_parameter (some s) .TLS_ENABLED value = (some s, 0) ∧
    mqtt_set_bool_parameter (some s) .KEEP_ALIVE_INTERVAL value = (some s, 0) ∧
    mqtt_set_bool_parameter (some s) .CONNECTION_TIMEOUT value = (some s, 0) ∧
    mqtt_set_bool_parameter (some s) .MAX_INFLIGHT value = (some s, 0) ∧
    mqtt_set_bool_parameter (some s) .MAX_QUEUED_MESSAGES value = (some s, 0) ∧
    mqtt_set_bool_parameter (some s) .RECONNECT_DELAY value = (some s, 0) :=
  ⟨rfl, rfl, rfl, rfl, rfl, rfl, rfl⟩

/-- C5: `mqtt_destroy_session` on a non-null handle (whose embedded
session pointer is non-null, as every handle built by
`mqtt_create_session` is) performs `stop()` on the underlying session
as its very first step, strictly before either handler adapter is
released from the registry — whether or not the factory is still alive.
Stopping destroys the native client, the only source of callbacks, so
no callback can observe the released adapters. -/
theorem destroy_session_stops_before_release (hasFactory : Bool) :
    (mqtt_destroy_session_actions true true hasFactory).head? =
      some DestroyAction.stopSession ∧
    (mqtt_destroy_session_actions true true hasFactory).indexOf
        DestroyAction.stopSession <
      (mqtt_destroy_session_actions true true hasFactory).indexOf
        DestroyAction.releaseMessageAdapter ∧
    (mqtt_destroy_session_actions true true hasFactory).indexOf
        DestroyAction.stopSession <
      (mqtt_destroy_session_actions true true hasFactory).indexOf
        DestroyAction.releaseSessionAdapter := by
  cases hasFactory <;> decide

/-- Every reachable session with a null native client handle is in
state `DISCONNECTED` (the client is created only by `start`, and the
connection-lost trampoline — the one writer of `RECONNECTING` — can
only run while the client is live). -/
theorem reachable_no_client_disconnected {s : SessionImpl}
    (h : Reachable s) :
    s.hasClient = false → s.currentState = .DISCONNECTED := by
  induction h with
  | new clientId => intro _; rfl
  | start s createRc connectRc _ ih =>
    unfold Session.start
    split
    · exact ih
    · split
      · exact ih
      · split <;> (intro hc; exact absurd hc (by simp))
  | stop s _ ih =>
    unfold Session.stop
    split
    · intro _; rfl
    · exact ih
  | subscribe s topic rc _ ih =>
    unfold Session.subscribe
    split <;> exact ih
  | unsubscribe s handle rc _ ih =>
    unfold Session.unsubscribe
    cases mapFind s.subscriptions handle with
    | none => exact ih
    | some t =>
      simp only
      split <;> exact ih
  | publish s topic rc _ ih =>
    unfold Session.publish
    split <;> exact ih
  | connectionLost s cause _ hc ih =>
    intro hfalse
    have hcc : s.hasClient = false := hfalse
    rw [hc] at hcc
    cases hcc
  | setMessageHandler s hasHandler _ ih => exact ih
  | setSessionHandler s hasHandler _ ih => exact ih
  | setConfig s c _ ih => exact ih

/-- After `stop`, the native client handle is null. -/
theorem stop_session_hasClient_false (s : SessionImpl) :
    (Session.stop s).session.hasClient = false := by
  unfold Session.stop
  split
  · rfl
  · simp_all

/-- `stop` on a session with no native client changes nothing, emits
nothing and returns `true`. -/
theorem stop_noop_of_no_client (s : SessionImpl) (h : s.hasClient = false) :
    Session.stop s = { session := s, ret := true, events := [] } := by
  unfold Session.stop
  rw [if_neg (by simp [h])]

/-- C6: a session that was never started (fresh from the constructor)
is in state `DISCONNECTED` and `stop()` on it returns success while
changing nothing and notifying nobody; and for every reachable session,
`stop()` applied after a previous `stop()` is likewise a no-op
returning success, on a session whose state reads `DISCONNECTED` —
`stop` is idempotent. -/
theorem stop_idempotent_noop (clientId : String) (s : SessionImpl)
    (hs : Reachable s) :
    Session.getState (Session.new clientId) = .DISCONNECTED ∧
    Session.stop (Session.new clientId) =
      { session := Session.new clientId, ret := true, events := [] } ∧
    Session.getState (Session.stop s).session = .DISCONNECTED ∧
    Session.stop (Session.stop s).session =
      { session := (Session.stop s).session, ret := true, events := [] } := by
  refine ⟨rfl, rfl, ?_, ?_⟩
  · show (Session.stop s).session.currentState = .DISCONNECTED
    unfold Session.stop
    split
    · rfl
    · exact reachable_no_client_disconnected hs (by simp_all)
  · exact stop_noop_of_no_client _ (stop_session_hasClient_false s)

/-- Witness for C6 on a started-then-stopped session. -/
theorem stop_idempotent_noop_witness :
    Session.getState (Session.new "client-6") = .DISCONNECTED ∧
    Session.stop (Session.new "client-6") =
      { session := Session.new "client-6", ret := true, events := [] } ∧
    Session.getState
      (Session.stop (Session.start brokerSession 0 0).session).session =
      .DISCONNECTED ∧
    Session.stop
        (Session.stop (Session.start brokerSession 0 0).session).session =
      { session := (Session.stop (Session.start brokerSession 0 0).session).session
        ret := true
        events := [] } :=
  stop_idempotent_noop "client-6" (Session.start brokerSession 0 0).session
    (Reachable.start brokerSession 0 0
      ((Session.new "client-1").config.setBroker (some "test.broker") 1883
        |> Reachable.setConfig (Session.new "client-1")
        <| Reachable.new "client-1"))

/-- C4: `unsubscribe(handle)` on a session whose handler is set and
whose subscription table has distinct keys: an absent handle returns
`false` with no handler call and no change at all; a present handle
with a successful native unsubscribe returns `true`, removes exactly
that entry (the handle no longer resolves, every other handle resolves
as before) and changes nothing else; a present handle with a failed
native unsubscribe reports the error to the handler, returns `false`,
and leaves the session — the entry included — intact. -/
theorem unsubscribe_branch_behaviour (s : SessionImpl) (handle rc : Int)
    (hsh : s.hasSessionHandler = true) (hnd : keysNodup s.subscriptions) :
    (mapFind s.subscriptions handle = none →
      Session.unsubscribe s handle rc =
        { session := s, ret := false, events := [] }) ∧
    (mapFind s.subscriptions handle ≠ none → rc = 0 →
      Session.unsubscribe s handle rc =
        { session := { s with subscriptions := mapErase s.subscriptions handle }
          ret := true
          events := [] } ∧
      mapFind (mapErase s.subscriptions handle) handle = none ∧
      ∀ k, k ≠ handle →
        mapFind (mapErase s.subscriptions handle) k =
          mapFind s.subscriptions k) ∧
    (mapFind s.subscriptions handle ≠ none → rc ≠ 0 →
      Session.unsubscribe s handle rc =
        { session := s, ret := false
          events := [Event.error rc "Unsubscribe failed"] }) := by
  refine ⟨?_, ?_, ?_⟩
  · intro hnone
    unfold Session.unsubscribe
    rw [hnone]
  · intro hsome hrc
    cases hm : mapFind s.subscriptions handle with
    | none => exact absurd hm hsome
    | some t =>
      refine ⟨?_, mapFind_mapErase_self s.subscriptions handle hnd,
        fun k hk => mapFind_mapErase_ne s.subscriptions handle k hk⟩
      unfold Session.unsubscribe
      rw [hm]
      simp [hrc]
  · intro hsome hrc
    cases hm : mapFind s.subscriptions handle with
    | none => exact absurd hm hsome
    | some t =>
      unfold Session.unsubscribe
      rw [hm]
      simp [hrc, emit, hsh]

/-- Witness for C4 on a one-entry table: handle 2 is absent, handle 1
unsubscribes cleanly. -/
theorem unsubscribe_branch_behaviour_witness :
    Session.unsubscribe oneSubSession 2 0 =
      { session := oneSubSession, ret := false, events := [] } ∧
    Session.unsubscribe oneSubSession 1 0 =
      { session :=
          { oneSubSession with
            subscriptions := mapErase oneSubSession.subscriptions 1 }
        ret := true
        events := [] } ∧
    mapFind (mapErase oneSubSession.subscriptions 1) 1 = none :=
  ⟨(unsubscribe_branch_behaviour oneSubSession 2 0 rfl (by decide)).1
      (by decide),
   ((unsubscribe_branch_behaviour oneSubSession 1 0 rfl (by decide)).2.1
      (by decide) rfl).1,
   ((unsubscribe_branch_behaviour oneSubSession 1 0 rfl (by decide)).2.1
      (by decide) rfl).2.1⟩

/-- C9: on a session whose handler is set and whose message-id counter
is at least 1 (as it always is: it starts at 1 and only increments), a
`publish` whose native call succeeds returns the freshly allocated
positive message id, with no handler notification; a `publish` whose
native call fails returns -1 and invokes the handler's error
notification exactly once — the failure is observable on both the
return-value channel and the handler channel. -/
theorem publish_dual_channel (s : SessionImpl) (topic : String) (rc : Int)
    (hsh : s.hasSessionHandler = true) (hpos : 1 ≤ s.nextMessageId) :
    (rc = 0 →
      (Session.publish s topic rc).ret = s.nextMessageId ∧
      0 < (Session.publish s topic rc).ret ∧
      (Session.publish s topic rc).events = []) ∧
    (rc ≠ 0 →
      (Session.publish s topic rc).ret = -1 ∧
      (Session.publish s topic rc).events =
        [Event.error rc "Publish failed"]) := by
  constructor
  · intro h
    subst h
    refine ⟨rfl, hpos, rfl⟩
  · intro h
    unfold Session.publish
    rw [if_pos h]
    exact ⟨rfl, by simp [emit, hsh]⟩

/-- Witness for C9: a successful publish on a fresh session returns id
1; a failed one (engine code 7) returns -1 via the event channel. -/
theorem publish_dual_channel_witness :
    (Session.publish (Session.new "client-9") "t/1" 0).ret = 1 ∧
    (Session.publish (Session.new "client-9") "t/1" 7).ret = -1 ∧
    (Session.publish (Session.new "client-9") "t/1" 7).events =
      [Event.error 7 "Publish failed"] :=
  ⟨((publish_dual_channel (Session.new "client-9") "t/1" 0 rfl
      (by decide)).1 rfl).1,
   ((publish_dual_channel (Session.new "client-9") "t/1" 7 rfl
      (by decide)).2 (by decide)).1,
   ((publish_dual_channel (Session.new "client-9") "t/1" 7 rfl
      (by decide)).2 (by decide)).2⟩

/-- C10: every `publish`, successful or not, takes the session to
exactly the same session with the message-id counter incremented by one
— no other field changes, so ids allocated to failed publishes are
consumed and skipped; a failed `subscribe` leaves the session exactly
as it was, so subscription handles are consumed only by successful
subscribes. -/
theorem publish_always_consumes_id_subscribe_fail_noop (s : SessionImpl)
    (topic : String) (rc : Int) :
    (Session.publish s topic rc).session =
      { s with nextMessageId := s.nextMessageId + 1 } ∧
    (rc ≠ 0 → (Session.subscribe s topic rc).session = s) := by
  refine ⟨publish_session_eq s topic rc, fun h => ?_⟩
  unfold Session.subscribe
  rw [if_pos h]

/-- Witness for C10 at engine failure code 5. -/
theorem publish_always_consumes_id_subscribe_fail_noop_witness :
    (Session.publish (Session.new "client-10") "t" 5).session =
      { Session.new "client-10" with nextMessageId := 2 } ∧
    (Session.subscribe (Session.new "client-10") "t" 5).session =
      Session.new "client-10" :=
  ⟨(publish_always_consumes_id_subscribe_fail_noop
      (Session.new "client-10") "t" 5).1,
   (publish_always_consumes_id_subscribe_fail_noop
      (Session.new "client-10") "t" 5).2 (by decide)⟩

/-- C3 counterexample.  Message ids are allocated before the native
publish, so a failed publish consumes an id: after one engine-rejected
publish, the first *successful* publish on a fresh session returns id
2, not 1 — the ids returned by successful publish calls do not form a
sequence starting at 1. -/
theorem first_successful_publish_id_not_one :
    pubSuccessIds (Session.new "client-3")
      [Op.publish "t" 1, Op.publish "t" 0] = [2] ∧
    (pubSuccessIds (Session.new "client-3")
      [Op.publish "t" 1, Op.publish "t" 0]).head? ≠ some 1 := by
  decide

/-- C3 (amended): over every finite sequence of subscribe, unsubscribe
and publish calls on a fresh session, with arbitrary engine result
codes: the handles returned by successful subscribes are exactly
`1, 2, …, k` in order (`k` the number of successful subscribes, handles
surviving unsubscribe/resubscribe cycles unreused); the ids returned by
successful publishes are strictly increasing and at least 1 — but need
not start at 1, because failed publishes also consume ids; and no
handle value and no id value is ever returned twice. -/
theorem handles_and_ids_strictly_increasing (clientId : String)
    (ops : List Op) :
    subSuccessIds (Session.new clientId) ops =
      intRange 1 (countSubSucc ops) ∧
    List.Chain' (· < ·) (pubSuccessIds (Session.new clientId) ops) ∧
    (∀ x, x ∈ pubSuccessIds (Session.new clientId) ops → 1 ≤ x) ∧
    (subSuccessIds (Session.new clientId) ops).Nodup ∧
    (pubSuccessIds (Session.new clientId) ops).Nodup := by
  have hsub := subSuccessIds_eq_intRange ops (Session.new clientId)
    (by show (0 : Int) ≤ 1; norm_num)
  refine ⟨hsub, pubSuccessIds_chain ops (Session.new clientId),
    fun x hx => pubSuccessIds_lower ops (Session.new clientId) x hx, ?_, ?_⟩
  · rw [hsub]
    exact nodup_of_chain_lt _ (intRange_chain _ 1)
  · exact nodup_of_chain_lt _ (pubSuccessIds_chain ops (Session.new clientId))

/-- Witness for C3 (amended) on a run with two accepted subscribes,
one rejected publish and one accepted publish. -/
theorem handles_and_ids_strictly_increasing_witness :
    subSuccessIds (Session.new "client-3w") sampleOps = intRange 1 2 ∧
    List.Chain' (· < ·) (pubSuccessIds (Session.new "client-3w") sampleOps) ∧
    (pubSuccessIds (Session.new "client-3w") sampleOps).Nodup :=
  ⟨(handles_and_ids_strictly_increasing "client-3w" sampleOps).1,
   (handles_and_ids_strictly_increasing "client-3w" sampleOps).2.1,
   (handles_and_ids_strictly_increasing "client-3w" sampleOps).2.2.2.2⟩

end PolarMqtt
